import Mathlib

/-!
# maelstrom::data (src/core/include/data.h)

A shallow embedding of the message model, `Node::parse_message`, the reply
constructors and the node id counter of `data.h`.

Conventions
* `unsigned int` is a `Nat` below `2 ^ 32`; arithmetic on it is written with an
  explicit `% 2 ^ 32`.
* `std::optional<T>` is `Option T`; `std::unique_ptr<T>` is `Option T` with
  `none` for `nullptr`.
* A C++ function that may throw returns `Except Exception _`.
* `boost::json` is an external library.  Its value type is the inductive
  `JValue`; `boost::json::parse` is a parameter of the embedding.
* The member functions that `data.h` only declares (`get_type`, `parse_init`,
  `parse_echo`, `parse_topology`, `parse_broadcast`, `parse_read`) are the
  fields of `Members`, a parameter of `parse_message`.  `Node.spec_members` holds
  them as the spec describes them; `handle_init` and the draw from the id counter
  are modelled from the spec as well.
-/

namespace maelstrom
namespace data

/-! ## Constants (data.h 17-43) -/

def kInitType : String := "init"
def kInitOkType : String := "init_ok"
def kEchoType : String := "echo"
def kEchoOkType : String := "echo_ok"
def kTopologyType : String := "topology"
def kTopologyOkType : String := "topology_ok"
def kReadType : String := "read"
def kReadOkType : String := "read_ok"
def kBroadcastType : String := "broadcast"
def kBroadcastOkType : String := "broadcast_ok"

def kSrc : String := "src"
def kDest : String := "dest"
def kType : String := "type"
def kBody : String := "body"
def kMsgId : String := "msg_id"
def kInReplyTo : String := "in_reply_to"
def kNodeId : String := "node_id"
def kNodeIds : String := "node_ids"
def kEchoField : String := "echo"
def kTopologyField : String := "topology"
def kMessageField : String := "message"
def kMessagesField : String := "messages"

/-- The number of values of a C++ `unsigned int` (32 bits). -/
def UINT_RANGE : Nat := 2 ^ 32

/-! ## Message model (data.h 47-152) -/

/-- The enum `MessageType` (data.h 47-52). -/
inductive MessageType where
  | INIT | INIT_OK
  | ECHO | ECHO_OK
  | TOPOLOGY | TOPOLOGY_OK | READ | READ_OK | BROADCAST | BROADCAST_OK
  | UNKNOWN
deriving DecidableEq, Repr

/-- The struct `Init` (data.h 58-65). -/
structure Init where
  msg_id_ : Nat
  node_id_ : String
  node_ids_ : List String
deriving DecidableEq, Repr

/-- The constructor `Init(msg_id, node_id, node_ids)` (data.h 63-64). -/
def Init.ctor (msg_id : Nat) (node_id : String) (node_ids : List String) : Init :=
  { msg_id_ := msg_id, node_id_ := node_id, node_ids_ := node_ids }

/-- The struct `InitOk` (data.h 67-71). -/
structure InitOk where
  in_reply_to_ : Nat
deriving DecidableEq, Repr

/-- The constructor `InitOk(msg_id)` (data.h 70). -/
def InitOk.ctor (msg_id : Nat) : InitOk :=
  { in_reply_to_ := msg_id }

/-- The struct `Echo` (data.h 73-79). -/
structure Echo where
  msg_id_ : Nat
  echo_ : String
deriving DecidableEq, Repr

/-- The constructor `Echo(msg_id, echo)` (data.h 77-78). -/
def Echo.ctor (msg_id : Nat) (echo : String) : Echo :=
  { msg_id_ := msg_id, echo_ := echo }

/-- The struct `EchoOk` (data.h 81-88). -/
structure EchoOk where
  msg_id_ : Nat
  in_reply_to_ : Nat
  echo_ : String
deriving DecidableEq, Repr

/-- The constructor `EchoOk(msg_id, in_reply_to, echo)` (data.h 86-87). -/
def EchoOk.ctor (msg_id : Nat) (in_reply_to : Nat) (echo : String) : EchoOk :=
  { msg_id_ := msg_id, in_reply_to_ := in_reply_to, echo_ := echo }

/-- The struct `Topology` (data.h 90-96); the `unordered_map` is an association list. -/
structure Topology where
  msg_id_ : Nat
  topology_ : List (String × List String)
deriving DecidableEq, Repr

/-- The constructor `Topology(msg_id, topology)` (data.h 94-95). -/
def Topology.ctor (msg_id : Nat) (topology : List (String × List String)) : Topology :=
  { msg_id_ := msg_id, topology_ := topology }

/-- The struct `TopologyOk` (data.h 98-103). -/
structure TopologyOk where
  in_reply_to_ : Nat
deriving DecidableEq, Repr

/-- The constructor `TopologyOk(in_reply_to)` (data.h 101-102). -/
def TopologyOk.ctor (in_reply_to : Nat) : TopologyOk :=
  { in_reply_to_ := in_reply_to }

/-- The struct `Broadcast` (data.h 105-111); `msg_id_` is a `std::optional`. -/
structure Broadcast where
  msg_id_ : Option Nat
  message_ : Nat
deriving DecidableEq, Repr

/-- The constructor `Broadcast(msg_id, message)` (data.h 109-110). -/
def Broadcast.ctor (msg_id : Option Nat) (message : Nat) : Broadcast :=
  { msg_id_ := msg_id, message_ := message }

/-- The struct `BroadcastOk` (data.h 113-120); `in_reply_to_` is a `std::optional`. -/
structure BroadcastOk where
  in_reply_to_ : Option Nat
deriving DecidableEq, Repr

/-- The constructor `std::optional<unsigned int>(U&& value)` with `U = unsigned int`:
the optional is engaged and holds `value`. -/
def optional_from_value (value : Nat) : Option Nat :=
  some value

/-- The default constructor `BroadcastOk()` (data.h 116), whose member
initialiser is `in_reply_to_{{}}`.

The initialiser list of the optional has one element, the empty list `{}`.
`std::optional` has no initializer-list constructor, so its constructors are
tried with the single argument `{}`.  The copy and move constructors would
need a user-defined conversion of `{}` to `optional`, `nullopt_t` cannot be
built from `{}`, and the converting constructor
`template <class U = T> optional(U&& value)` takes `U = unsigned int` from its
default argument and binds `value` to a value-initialised `unsigned int`,
which is `0`.  The member is therefore an engaged optional holding `0`. -/
def BroadcastOk.ctor_default : BroadcastOk :=
  { in_reply_to_ := optional_from_value 0 }

/-- The constructor `BroadcastOk(in_reply_to)` (data.h 118-119). -/
def BroadcastOk.ctor (in_reply_to : Nat) : BroadcastOk :=
  { in_reply_to_ := optional_from_value in_reply_to }

/-- The struct `Read` (data.h 122-127). -/
structure Read where
  msg_id_ : Nat
deriving DecidableEq, Repr

/-- The constructor `Read(msg_id)` (data.h 125-126). -/
def Read.ctor (msg_id : Nat) : Read :=
  { msg_id_ := msg_id }

/-- The struct `ReadOk` (data.h 129-135). -/
structure ReadOk where
  in_reply_to_ : Nat
  messages_ : List Nat
deriving DecidableEq, Repr

/-- The constructor `ReadOk(in_reply_to, messages)` (data.h 133-134). -/
def ReadOk.ctor (in_reply_to : Nat) (messages : List Nat) : ReadOk :=
  { in_reply_to_ := in_reply_to, messages_ := messages }

/-- The closed hierarchy below `MsgBody` (data.h 54-135): the dynamic type of
an object owned through a `MsgBody` pointer. -/
inductive MsgBody where
  | init (b : Init)
  | init_ok (b : InitOk)
  | echo (b : Echo)
  | echo_ok (b : EchoOk)
  | topology (b : Topology)
  | topology_ok (b : TopologyOk)
  | broadcast (b : Broadcast)
  | broadcast_ok (b : BroadcastOk)
  | read (b : Read)
  | read_ok (b : ReadOk)
deriving DecidableEq, Repr

/-- The struct `Message` (data.h 140-152); `body_` is a `unique_ptr<MsgBody>`. -/
structure Message where
  src_ : String
  dest_ : String
  type_ : MessageType
  body_ : Option MsgBody
deriving DecidableEq, Repr

/-- The constructor `Message(src, dest, type)` (data.h 147-148): `body_` is null. -/
def Message.ctor (src dest : String) (type : MessageType) : Message :=
  { src_ := src, dest_ := dest, type_ := type, body_ := none }

/-- The constructor `Message(src, dest, type, body)` (data.h 150-151). -/
def Message.ctor_body (src dest : String) (type : MessageType) (body : Option MsgBody) :
    Message :=
  { src_ := src, dest_ := dest, type_ := type, body_ := body }

/-! ## C++ and boost::json primitives used by `parse_message` -/

/-- What a C++ call may throw: an error raised inside `boost::json` (a parse
failure, or a kind mismatch in `as_object` / `as_string`), or the
`std::runtime_error` thrown by this repository. -/
inductive Exception where
  | json_error
  | runtime_error (what : String)
deriving DecidableEq, Repr

/-- The kinds of a `boost::json::value`.  A `double` is kept as its bit pattern. -/
inductive JValue where
  | null
  | bool (b : Bool)
  | int64 (i : Int)
  | uint64 (n : Nat)
  | double (bits : Nat)
  | string (s : String)
  | array (xs : List JValue)
  | object (members : List (String × JValue))

/-- A `boost::json::object`: its members, one per key. -/
abbrev JObject := List (String × JValue)

/-- The checked accessor `value::as_object()`: throws unless the value is an object. -/
def JValue.as_object : JValue → Except Exception JObject
  | JValue.object o => Except.ok o
  | _ => Except.error Exception.json_error

/-- The checked accessor `value::as_string()`: throws unless the value is a string. -/
def JValue.as_string : JValue → Except Exception String
  | JValue.string s => Except.ok s
  | _ => Except.error Exception.json_error

/-- The accessor `object::operator[](key)`: the value stored under `key`; when the
key is absent a `null` member is inserted first.  Returns the value and the object
after the call. -/
def JObject.index (o : JObject) (key : String) : JValue × JObject :=
  match o.lookup key with
  | some v => (v, o)
  | none => (JValue.null, o ++ [(key, JValue.null)])

/-- The conversion `std::string{s.c_str()}` (data.h 223, 224, 227): `c_str()` points
at the bytes of `s` followed by a terminating NUL, and the `std::string(const char*)`
constructor copies up to the first NUL byte it meets.  A `boost::json::string` may
hold NUL bytes (the escape `\u0000` decodes to one); in UTF-8 a NUL byte occurs only
as the character U+0000, so the copy is the text before the first such character. -/
def string_from_c_str (s : String) : String :=
  String.mk (s.data.takeWhile (fun c => c.toNat != 0))

/-! ## Node (data.h 160-269) -/

/-- The type `Handler` (data.h 158). -/
abbrev Handler := Message → List Message

/-- The enum `Node::State` (data.h 175-179). -/
inductive State where
  | CREATED
  | WAITING_FOR_INIT
  | READY
deriving DecidableEq, Repr

/-- Modelled from the spec: the class `maelstrom::core::logger` of `logging.h`,
which is not part of the sources.  The logging sink "receives plain log lines":
it is the list of the lines written so far, oldest first. -/
structure logger where
  lines : List String
deriving DecidableEq, Repr

/-- Modelled from the spec: `logger::log(line)` of `logging.h`, which is not part of
the sources: the sink receives one more plain log line. -/
def logger.log (lg : logger) (line : String) : logger :=
  { lines := lg.lines ++ [line] }

/-- The data members of `Node` (data.h 181-189), `lock_` left out.  `handlers_` is
the `unordered_map` from `MessageType` to `Handler`; `msg_id` is the
`std::atomic_uint` counter. -/
structure Node where
  handlers_ : MessageType → Option Handler
  state_ : State
  lg_ : logger
  id_ : String
  peers_ : List String
  msg_id : Nat

/-- The initial value of the member `msg_id` (data.h 189): `std::atomic_uint msg_id = 1`. -/
def Node.msg_id_init : Nat := 1

/-- The node after a member function has written `written` to the logger behind
`lg_`, one `log` call per line; no other member changes. -/
def Node.wrote (node : Node) (written : List String) : Node :=
  { node with lg_ := written.foldl logger.log node.lg_ }

/-- The `const` member functions that data.h declares (lines 201-213) and defines
elsewhere.  Being `const`, they may read the node they are called on (the first
argument) and write none of its data members (none is `mutable`); `lg_` is a
reference (data.h 184), so they may still call `lg_.log`.  Each function gives its
result, and the lines it writes to the logger, in the order written, whether it
returns or throws.  The `parse_*` functions return a `unique_ptr` (possibly null)
or throw. -/
structure Members where
  get_type : Node → String → MessageType × List String
  parse_init : Node → JObject → Except Exception (Option Init) × List String
  parse_echo : Node → JObject → Except Exception (Option Echo) × List String
  parse_topology : Node → JObject → Except Exception (Option Topology) × List String
  parse_broadcast : Node → JObject → Except Exception (Option Broadcast) × List String
  parse_read : Node → JObject → Except Exception (Option Read) × List String

/-- The declared member functions write no log line. -/
def Members.silent (m : Members) : Prop :=
  (∀ n s, (m.get_type n s).2 = []) ∧
  (∀ n b, (m.parse_init n b).2 = []) ∧
  (∀ n b, (m.parse_echo n b).2 = []) ∧
  (∀ n b, (m.parse_topology n b).2 = []) ∧
  (∀ n b, (m.parse_broadcast n b).2 = []) ∧
  (∀ n b, (m.parse_read n b).2 = [])

/-- The member function `Node::parse_message` (data.h 220-266).  `json_parse` is
`boost::json::parse`.  The result is what the call returns or throws, together
with the node after the call: the log line of data.h 228 is written first, then
whatever `get_type` and the `parse_*` function of the matched case write. -/
def Node.parse_message (json_parse : String → Except Exception JValue) (m : Members)
    (node : Node) (json_str : String) : Except Exception Message × Node :=
  match json_parse json_str with
  | Except.error e => (Except.error e, node)
  | Except.ok jv =>
  match jv.as_object with
  | Except.error e => (Except.error e, node)
  | Except.ok obj =>
  match (obj.index kSrc).1.as_string with
  | Except.error e => (Except.error e, node)
  | Except.ok src_json =>
  let src := string_from_c_str src_json
  let obj1 := (obj.index kSrc).2
  match (obj1.index kDest).1.as_string with
  | Except.error e => (Except.error e, node)
  | Except.ok dest_json =>
  let dest := string_from_c_str dest_json
  let obj2 := (obj1.index kDest).2
  match (obj2.index kBody).1.as_object with
  | Except.error e => (Except.error e, node)
  | Except.ok bodyObj =>
  match (bodyObj.index kType).1.as_string with
  | Except.error e => (Except.error e, node)
  | Except.ok type_json =>
  let type := string_from_c_str type_json
  let bodyObj1 := (bodyObj.index kType).2
  let node1 := { node with lg_ := node.lg_.log ("received type: " ++ type) }
  let node2 := node1.wrote (m.get_type node1 type).2
  match (m.get_type node1 type).1 with
  | MessageType.INIT =>
    let node3 := node2.wrote (m.parse_init node2 bodyObj1).2
    match (m.parse_init node2 bodyObj1).1 with
    | Except.error e => (Except.error e, node3)
    | Except.ok body =>
      (Except.ok { Message.ctor src dest MessageType.INIT with
                   body_ := body.map MsgBody.init }, node3)
  | MessageType.ECHO =>
    let node3 := node2.wrote (m.parse_echo node2 bodyObj1).2
    match (m.parse_echo node2 bodyObj1).1 with
    | Except.error e => (Except.error e, node3)
    | Except.ok body =>
      (Except.ok { Message.ctor src dest MessageType.ECHO with
                   body_ := body.map MsgBody.echo }, node3)
  | MessageType.TOPOLOGY =>
    let node3 := node2.wrote (m.parse_topology node2 bodyObj1).2
    match (m.parse_topology node2 bodyObj1).1 with
    | Except.error e => (Except.error e, node3)
    | Except.ok body =>
      (Except.ok { Message.ctor src dest MessageType.TOPOLOGY with
                   body_ := body.map MsgBody.topology }, node3)
  | MessageType.BROADCAST =>
    let node3 := node2.wrote (m.parse_broadcast node2 bodyObj1).2
    match (m.parse_broadcast node2 bodyObj1).1 with
    | Except.error e => (Except.error e, node3)
    | Except.ok body =>
      (Except.ok { Message.ctor src dest MessageType.BROADCAST with
                   body_ := body.map MsgBody.broadcast }, node3)
  | MessageType.READ =>
    let node3 := node2.wrote (m.parse_read node2 bodyObj1).2
    match (m.parse_read node2 bodyObj1).1 with
    | Except.error e => (Except.error e, node3)
    | Except.ok body =>
      (Except.ok { Message.ctor src dest MessageType.READ with
                   body_ := body.map MsgBody.read }, node3)
  | _ => (Except.error (Exception.runtime_error "Unexpected message"), node2)

/-! ## The member functions declared in data.h and defined elsewhere -/

/-- Modelled from the spec: `Node::get_type` (declared at data.h 201, defined outside
the sources).  "Recognized inbound types: init, echo, topology, broadcast, read.
Internally produced outbound types: init_ok, echo_ok, topology_ok, broadcast_ok,
read_ok."  Each type string of data.h 17-30 names its `MessageType`; every other
string is `UNKNOWN`. -/
def Node.get_type (type : String) : MessageType :=
  if type = kInitType then MessageType.INIT
  else if type = kInitOkType then MessageType.INIT_OK
  else if type = kEchoType then MessageType.ECHO
  else if type = kEchoOkType then MessageType.ECHO_OK
  else if type = kTopologyType then MessageType.TOPOLOGY
  else if type = kTopologyOkType then MessageType.TOPOLOGY_OK
  else if type = kReadType then MessageType.READ
  else if type = kReadOkType then MessageType.READ_OK
  else if type = kBroadcastType then MessageType.BROADCAST
  else if type = kBroadcastOkType then MessageType.BROADCAST_OK
  else MessageType.UNKNOWN

/-- Modelled from the spec: a required field of a payload ("required fields are
absent/mistyped" is a ParseError): the member stored under `key`, or an error. -/
def required_field (body_json : JObject) (key : String) : Except Exception JValue :=
  match body_json.lookup key with
  | some v => Except.ok v
  | none => Except.error Exception.json_error

/-- Modelled from the spec: a JSON number read as an `unsigned int` field (`msg_id`,
`message`): an integer in the range of the type, anything else is mistyped. -/
def JValue.to_unsigned : JValue → Except Exception Nat
  | JValue.int64 i =>
    if 0 ≤ i ∧ i < (UINT_RANGE : Int) then Except.ok i.toNat
    else Except.error Exception.json_error
  | JValue.uint64 n =>
    if n < UINT_RANGE then Except.ok n else Except.error Exception.json_error
  | _ => Except.error Exception.json_error

/-- Modelled from the spec: the elements of a "list of" strings (`node_ids`, a
neighbor list), each of which has to be a string. -/
def strings_of : List JValue → Except Exception (List String)
  | [] => Except.ok []
  | v :: vs =>
    match v.as_string, strings_of vs with
    | Except.ok s, Except.ok ss => Except.ok (s :: ss)
    | Except.error e, _ => Except.error e
    | _, Except.error e => Except.error e

/-- Modelled from the spec: a JSON array of strings. -/
def JValue.to_string_list : JValue → Except Exception (List String)
  | JValue.array xs => strings_of xs
  | _ => Except.error Exception.json_error

/-- Modelled from the spec: the members of the `topology` object, a "mapping
node_id→list of neighbor ids". -/
def adjacency_of : List (String × JValue) → Except Exception (List (String × List String))
  | [] => Except.ok []
  | (k, v) :: rest =>
    match v.to_string_list, adjacency_of rest with
    | Except.ok ns, Except.ok m => Except.ok ((k, ns) :: m)
    | Except.error e, _ => Except.error e
    | _, Except.error e => Except.error e

/-- Modelled from the spec: `Node::parse_init` (declared at data.h 203, defined outside
the sources): "Init{msg_id, node_id, node_ids}", all three fields required. -/
def Node.parse_init (body_json : JObject) : Except Exception (Option Init) :=
  match (required_field body_json kMsgId).bind JValue.to_unsigned,
        (required_field body_json kNodeId).bind JValue.as_string,
        (required_field body_json kNodeIds).bind JValue.to_string_list with
  | Except.ok msg_id, Except.ok node_id, Except.ok node_ids =>
    Except.ok (some (Init.ctor msg_id node_id node_ids))
  | Except.error e, _, _ => Except.error e
  | _, Except.error e, _ => Except.error e
  | _, _, Except.error e => Except.error e

/-- Modelled from the spec: `Node::parse_echo` (declared at data.h 207, defined outside
the sources): "Echo{msg_id, echo}", both fields required. -/
def Node.parse_echo (body_json : JObject) : Except Exception (Option Echo) :=
  match (required_field body_json kMsgId).bind JValue.to_unsigned,
        (required_field body_json kEchoField).bind JValue.as_string with
  | Except.ok msg_id, Except.ok echo => Except.ok (some (Echo.ctor msg_id echo))
  | Except.error e, _ => Except.error e
  | _, Except.error e => Except.error e

/-- Modelled from the spec: `Node::parse_topology` (declared at data.h 209, defined
outside the sources): "Topology{msg_id, topology: mapping node_id→list of neighbor
ids}", both fields required. -/
def Node.parse_topology (body_json : JObject) : Except Exception (Option Topology) :=
  match (required_field body_json kMsgId).bind JValue.to_unsigned,
        ((required_field body_json kTopologyField).bind JValue.as_object).bind
          adjacency_of with
  | Except.ok msg_id, Except.ok topology => Except.ok (some (Topology.ctor msg_id topology))
  | Except.error e, _ => Except.error e
  | _, Except.error e => Except.error e

/-- Modelled from the spec: `Node::parse_broadcast` (declared at data.h 211, defined
outside the sources): "Broadcast{msg_id optional, message: integer}"; "`Broadcast.msg_id`
absence is meaningful, not an error". -/
def Node.parse_broadcast (body_json : JObject) : Except Exception (Option Broadcast) :=
  match (required_field body_json kMessageField).bind JValue.to_unsigned with
  | Except.error e => Except.error e
  | Except.ok message =>
    match body_json.lookup kMsgId with
    | none => Except.ok (some (Broadcast.ctor none message))
    | some v =>
      match v.to_unsigned with
      | Except.ok msg_id => Except.ok (some (Broadcast.ctor (some msg_id) message))
      | Except.error e => Except.error e

/-- Modelled from the spec: `Node::parse_read` (declared at data.h 213, defined outside
the sources): "Read{msg_id}", the field required. -/
def Node.parse_read (body_json : JObject) : Except Exception (Option Read) :=
  match (required_field body_json kMsgId).bind JValue.to_unsigned with
  | Except.ok msg_id => Except.ok (some (Read.ctor msg_id))
  | Except.error e => Except.error e

/-- Modelled from the spec: the declared member functions as the spec describes
them.  None of them looks at the node, and none writes a log line: the core "emits
one log line per received message", the line of data.h 228. -/
def Node.spec_members : Members :=
  { get_type := fun _ type => (Node.get_type type, [])
    parse_init := fun _ body_json => (Node.parse_init body_json, [])
    parse_echo := fun _ body_json => (Node.parse_echo body_json, [])
    parse_topology := fun _ body_json => (Node.parse_topology body_json, [])
    parse_broadcast := fun _ body_json => (Node.parse_broadcast body_json, [])
    parse_read := fun _ body_json => (Node.parse_read body_json, []) }

/-- Modelled from the spec: `Node::handle_init` (declared at data.h 268, defined outside
the sources).  "on receiving Init, the engine sets node id and peer list from the
payload, answers with InitOk.in_reply_to = Init.msg_id, and moves to READY"; a
message that carries no Init payload is a ProtocolViolation.  The reply goes from
the recipient of the request back to its sender, as in the init scenario of the
spec. -/
def Node.handle_init (node : Node) (msg : Message) : Except Exception (List Message) × Node :=
  match msg.body_ with
  | some (MsgBody.init i) =>
    (Except.ok [Message.ctor_body msg.dest_ msg.src_ MessageType.INIT_OK
                  (some (MsgBody.init_ok (InitOk.ctor i.msg_id_)))],
     { node with id_ := i.node_id_, peers_ := i.node_ids_, state_ := State.READY })
  | _ => (Except.error (Exception.runtime_error "ProtocolViolation"), node)

/-- The handshake states a node passes through while `handle_init` handles the
messages of a list one after another, the state before the first message included. -/
def Node.state_trace (node : Node) : List Message → List State
  | [] => [node.state_]
  | msg :: rest => node.state_ :: Node.state_trace (node.handle_init msg).2 rest

/-- The number of steps `WAITING_FOR_INIT → READY` in a sequence of states. -/
def ready_transitions : List State → Nat
  | [] => 0
  | [_] => 0
  | s :: t :: rest =>
    (if s = State.WAITING_FOR_INIT ∧ t = State.READY then 1 else 0)
      + ready_transitions (t :: rest)

/-- Modelled from the spec: a draw from the id generator, whose code is outside the
sources: the "single monotonically increasing counter ... incremented atomically",
"every id is consumed exactly once".  The draw is `msg_id++` on the
`std::atomic_uint` member: it hands out the stored value and stores its successor,
which for an `unsigned int` is taken modulo `2 ^ 32`. -/
def Node.next_msg_id (node : Node) : Nat × Node :=
  (node.msg_id, { node with msg_id := (node.msg_id + 1) % UINT_RANGE })

/-- The ids handed out by `n` successive draws, in the order of the draws. -/
def Node.draw_ids : Nat → Node → List Nat
  | 0, _ => []
  | n + 1, node => (node.next_msg_id).1 :: Node.draw_ids n (node.next_msg_id).2

/-- Modelled from the spec: the node as the constructor `Node::Node()` (declared at
data.h 191, defined outside the sources) leaves it.  The counter is `1` (data.h 189);
the handshake state is CREATED, the first of "CREATED → (on run start)
WAITING_FOR_INIT → (on first Init received) READY"; no handler is registered,
nothing has been logged, identity and peers are not yet set. -/
def Node.fresh : Node :=
  { handlers_ := fun _ => none
    state_ := State.CREATED
    lg_ := { lines := [] }
    id_ := ""
    peers_ := []
    msg_id := Node.msg_id_init }

/-! ## Vocabulary of the properties -/

/-- The member of a JSON value stored under `key`: `none` when the value is not an
object or has no such member. -/
def JValue.member (v : JValue) (key : String) : Option JValue :=
  match v with
  | JValue.object o => o.lookup key
  | _ => none

/-- The string a JSON value is, `none` when it is not a string. -/
def JValue.string_value : JValue → Option String
  | JValue.string s => some s
  | _ => none

/-- Whether a JSON value is an object. -/
def JValue.is_object : JValue → Bool
  | JValue.object _ => true
  | _ => false

/-- The `src` string of the envelope, `none` when absent or not a string. -/
def JValue.src_string (v : JValue) : Option String :=
  (v.member kSrc).bind JValue.string_value

/-- The `dest` string of the envelope, `none` when absent or not a string. -/
def JValue.dest_string (v : JValue) : Option String :=
  (v.member kDest).bind JValue.string_value

/-- The `body` of the envelope, `none` when absent or not an object. -/
def JValue.body_object (v : JValue) : Option JValue :=
  match v.member kBody with
  | some (JValue.object o) => some (JValue.object o)
  | _ => none

/-- The `type` string of the body, `none` when the body or the type is absent or
mistyped. -/
def JValue.body_type (v : JValue) : Option String :=
  (v.body_object.bind (fun b => b.member kType)).bind JValue.string_value

/-- The five request type strings. -/
def request_types : List String :=
  [kInitType, kEchoType, kTopologyType, kBroadcastType, kReadType]

/-- The `MessageType` named by a request type string: init→INIT, echo→ECHO,
topology→TOPOLOGY, broadcast→BROADCAST, read→READ. -/
def request_tag (type : String) : Option MessageType :=
  if type = kInitType then some MessageType.INIT
  else if type = kEchoType then some MessageType.ECHO
  else if type = kTopologyType then some MessageType.TOPOLOGY
  else if type = kBroadcastType then some MessageType.BROADCAST
  else if type = kReadType then some MessageType.READ
  else none

/-- Tag and payload of a message agree: the body is present and its variant is the
one the tag names. -/
def Message.tag_agrees (msg : Message) : Bool :=
  match msg.type_, msg.body_ with
  | MessageType.INIT, some (MsgBody.init _) => true
  | MessageType.ECHO, some (MsgBody.echo _) => true
  | MessageType.TOPOLOGY, some (MsgBody.topology _) => true
  | MessageType.BROADCAST, some (MsgBody.broadcast _) => true
  | MessageType.READ, some (MsgBody.read _) => true
  | _, _ => false

/-! ## A reader for JSON text

`boost::json::parse` is a parameter of `parse_message`.  The closed examples below
need one concrete function for it: `readJson` reads the JSON grammar of RFC 8259
restricted to integer numbers, keeps the last of two members with the same key, and
decodes `\u` escapes of the basic plane, `\u0000` included, as `boost::json` does. -/

/-- Drops leading JSON whitespace (space, line feed, carriage return, tab). -/
def skipWs : List Char → List Char
  | [] => []
  | c :: cs =>
    if c.toNat = 32 ∨ c.toNat = 10 ∨ c.toNat = 13 ∨ c.toNat = 9 then skipWs cs else c :: cs

/-- The value of a hexadecimal digit. -/
def hexVal (c : Char) : Option Nat :=
  let n := c.toNat
  if 48 ≤ n ∧ n ≤ 57 then some (n - 48)
  else if 97 ≤ n ∧ n ≤ 102 then some (n - 87)
  else if 65 ≤ n ∧ n ≤ 70 then some (n - 55)
  else none

/-- The code unit written by four hexadecimal digits. -/
def hex4 (a b c d : Char) : Option Nat :=
  match hexVal a, hexVal b, hexVal c, hexVal d with
  | some w, some x, some y, some z => some (((w * 16 + x) * 16 + y) * 16 + z)
  | _, _, _, _ => none

/-- The character that a one-letter escape stands for. -/
def unescape (c : Char) : Option Char :=
  let n := c.toNat
  if n = 34 ∨ n = 92 ∨ n = 47 then some c
  else if n = 98 then some (Char.ofNat 8)
  else if n = 102 then some (Char.ofNat 12)
  else if n = 110 then some (Char.ofNat 10)
  else if n = 114 then some (Char.ofNat 13)
  else if n = 116 then some (Char.ofNat 9)
  else none

/-- Reads a string after its opening quote; `acc` holds the characters read so far,
last first.  Control characters and surrogate escapes are rejected. -/
def readString : Nat → List Char → List Char → Option (String × List Char)
  | 0, _, _ => none
  | _ + 1, [], _ => none
  | fuel + 1, c :: cs, acc =>
    if c.toNat = 34 then some (String.mk acc.reverse, cs)
    else if c.toNat = 92 then
      match cs with
      | [] => none
      | e :: cs1 =>
        if e.toNat = 117 then
          match cs1 with
          | h1 :: h2 :: h3 :: h4 :: cs2 =>
            match hex4 h1 h2 h3 h4 with
            | some n =>
              if 55296 ≤ n ∧ n ≤ 57343 then none
              else readString fuel cs2 (Char.ofNat n :: acc)
            | none => none
          | _ => none
        else
          match unescape e with
          | some u => readString fuel cs1 (u :: acc)
          | none => none
    else if c.toNat < 32 then none
    else readString fuel cs (c :: acc)

/-- Reads a run of decimal digits onto `acc`. -/
def readDigits : List Char → Nat → Nat × List Char
  | [], acc => (acc, [])
  | c :: cs, acc =>
    if 48 ≤ c.toNat ∧ c.toNat ≤ 57 then readDigits cs (acc * 10 + (c.toNat - 48))
    else (acc, c :: cs)

/-- Whether a character is a decimal digit. -/
def isDigit (c : Char) : Bool := decide (48 ≤ c.toNat ∧ c.toNat ≤ 57)

/-- Whether an integer ends here: no fraction and no exponent follows. -/
def numberEnds (rest : List Char) : Bool :=
  match rest with
  | [] => true
  | c :: _ => !(c.toNat = 46 || c.toNat = 101 || c.toNat = 69)

/-- Reads an integer: `int64` when it fits, else `uint64` when it fits. -/
def readNumber (cs : List Char) : Option (JValue × List Char) :=
  match cs with
  | [] => none
  | c :: rest =>
    if c.toNat = 45 then
      match rest with
      | d :: rest1 =>
        if isDigit d ∧ ¬ (d.toNat = 48 ∧ (rest1.head?.map isDigit) = some true) then
          let r := readDigits rest 0
          if numberEnds r.2 ∧ r.1 ≤ 2 ^ 63 then some (JValue.int64 (- (r.1 : Int)), r.2) else none
        else none
      | [] => none
    else if isDigit c ∧ ¬ (c.toNat = 48 ∧ (rest.head?.map isDigit) = some true) then
      let r := readDigits cs 0
      if numberEnds r.2 then
        if r.1 < 2 ^ 63 then some (JValue.int64 (r.1 : Int), r.2)
        else if r.1 < 2 ^ 64 then some (JValue.uint64 r.1, r.2)
        else none
      else none
    else none

/-- Stores a member, replacing the value of a key that is already there. -/
def putMember (o : JObject) (k : String) (v : JValue) : JObject :=
  match o with
  | [] => [(k, v)]
  | (k1, v1) :: rest => if k1 = k then (k, v) :: rest else (k1, v1) :: putMember rest k v

/-- Drops the given code points from the front of the input. -/
def dropLit (lit : List Nat) (cs : List Char) : Option (List Char) :=
  match lit, cs with
  | [], cs => some cs
  | _ :: _, [] => none
  | n :: lit1, c :: cs1 => if c.toNat = n then dropLit lit1 cs1 else none

mutual
/-- Reads one JSON value, the members of an object after its opening brace, and the
elements of an array after its opening bracket. -/
def readValue : Nat → List Char → Option (JValue × List Char)
  | 0, _ => none
  | fuel + 1, cs =>
    match skipWs cs with
    | [] => none
    | c :: rest =>
      if c.toNat = 123 then
        match skipWs rest with
        | [] => none
        | d :: rest1 =>
          if d.toNat = 125 then some (JValue.object [], rest1)
          else readMembers fuel (d :: rest1) []
      else if c.toNat = 91 then
        match skipWs rest with
        | [] => none
        | d :: rest1 =>
          if d.toNat = 93 then some (JValue.array [], rest1)
          else readElements fuel (d :: rest1) []
      else if c.toNat = 34 then
        match readString fuel rest [] with
        | some (s, r) => some (JValue.string s, r)
        | none => none
      else if c.toNat = 110 then (dropLit [117, 108, 108] rest).map (fun r => (JValue.null, r))
      else if c.toNat = 116 then
        (dropLit [114, 117, 101] rest).map (fun r => (JValue.bool true, r))
      else if c.toNat = 102 then
        (dropLit [97, 108, 115, 101] rest).map (fun r => (JValue.bool false, r))
      else readNumber (c :: rest)
def readMembers : Nat → List Char → JObject → Option (JValue × List Char)
  | 0, _, _ => none
  | fuel + 1, cs, acc =>
    match skipWs cs with
    | [] => none
    | q :: rest =>
      if q.toNat = 34 then
        match readString fuel rest [] with
        | none => none
        | some (k, r1) =>
          match skipWs r1 with
          | [] => none
          | colon :: r2 =>
            if colon.toNat = 58 then
              match readValue fuel r2 with
              | none => none
              | some (v, r3) =>
                match skipWs r3 with
                | [] => none
                | sep :: r4 =>
                  if sep.toNat = 44 then readMembers fuel r4 (putMember acc k v)
                  else if sep.toNat = 125 then some (JValue.object (putMember acc k v), r4)
                  else none
            else none
      else none
def readElements : Nat → List Char → List JValue → Option (JValue × List Char)
  | 0, _, _ => none
  | fuel + 1, cs, acc =>
    match readValue fuel cs with
    | none => none
    | some (v, r1) =>
      match skipWs r1 with
      | [] => none
      | sep :: r2 =>
        if sep.toNat = 44 then readElements fuel r2 (acc ++ [v])
        else if sep.toNat = 93 then some (JValue.array (acc ++ [v]), r2)
        else none
end

/-- Reads a whole line as one JSON value; trailing text other than whitespace is an
error. -/
def readJson (text : String) : Except Exception JValue :=
  match readValue (text.length + 1) text.data with
  | some (v, rest) =>
    match skipWs rest with
    | [] => Except.ok v
    | _ :: _ => Except.error Exception.json_error
  | none => Except.error Exception.json_error


/-! ## Sample nodes and input lines -/

/-- A node that has entered `start_and_run` and waits for the handshake. -/
def Node.waiting : Node :=
  { Node.fresh with state_ := State.WAITING_FOR_INIT }

/-- The init line of the scenario in the spec. -/
def line_init : String :=
  "\x7b\"src\":\"c1\",\"dest\":\"n1\",\"body\":\x7b\"type\":\"init\",\"msg_id\":1,\"node_id\":\"n1\",\"node_ids\":[\"n1\",\"n2\"]\x7d\x7d"

/-- The echo line of the scenario in the spec. -/
def line_echo : String :=
  "\x7b\"src\":\"c1\",\"dest\":\"n1\",\"body\":\x7b\"type\":\"echo\",\"msg_id\":2,\"echo\":\"hello\"\x7d\x7d"

/-- A reply-shaped line: its type is `init_ok`. -/
def line_init_ok : String :=
  "\x7b\"src\":\"n1\",\"dest\":\"c1\",\"body\":\x7b\"type\":\"init_ok\",\"in_reply_to\":1\x7d\x7d"

/-- The echo line without its `src` member. -/
def line_no_src : String :=
  "\x7b\"dest\":\"n1\",\"body\":\x7b\"type\":\"echo\",\"msg_id\":2,\"echo\":\"hello\"\x7d\x7d"

/-- A read line whose type string is `read`, a NUL character written as the escape
`\u0000`, and `_ok`. -/
def line_nul_type : String :=
  "\x7b\"src\":\"c1\",\"dest\":\"n1\",\"body\":\x7b\"type\":\"read\\u0000_ok\",\"msg_id\":7\x7d\x7d"

/-- A read line whose `src` string is `c`, a NUL character written as the escape
`\u0000`, and `1`. -/
def line_nul_src : String :=
  "\x7b\"src\":\"c\\u00001\",\"dest\":\"n1\",\"body\":\x7b\"type\":\"read\",\"msg_id\":7\x7d\x7d"

/-- The type string of `line_nul_type` after JSON decoding: eight characters, the
fifth of which is NUL. -/
def type_with_nul : String :=
  String.mk [Char.ofNat 114, Char.ofNat 101, Char.ofNat 97, Char.ofNat 100, Char.ofNat 0,
    Char.ofNat 95, Char.ofNat 111, Char.ofNat 107]

/-- The `src` string of `line_nul_src` after JSON decoding: three characters, the
second of which is NUL. -/
def src_with_nul : String :=
  String.mk [Char.ofNat 99, Char.ofNat 0, Char.ofNat 49]

/-- Helper members that differ from those of the spec in one respect: `get_type`
writes a log line of its own. -/
def Node.chatty_members : Members :=
  { Node.spec_members with
    get_type := fun _ type => (Node.get_type type, ["get_type: " ++ type]) }

/-! ## Lemmas on the boost::json accessors -/

theorem JObject.index_of_lookup {o : JObject} {key : String} {v : JValue}
    (h : o.lookup key = some v) : JObject.index o key = (v, o) := by
  simp [JObject.index, h]

theorem JObject.index_fst_of_absent {o : JObject} {key : String}
    (h : o.lookup key = none) : (JObject.index o key).1 = JValue.null := by
  simp [JObject.index, h]

theorem JObject.lookup_of_as_string {o : JObject} {key s : String}
    (h : (JObject.index o key).1.as_string = Except.ok s) :
    o.lookup key = some (JValue.string s) := by
  unfold JObject.index at h
  cases hl : o.lookup key with
  | none => simp [hl, JValue.as_string] at h
  | some v =>
    cases v <;> simp_all [JValue.as_string]

theorem JObject.lookup_of_as_object {o : JObject} {key : String} {b : JObject}
    (h : (JObject.index o key).1.as_object = Except.ok b) :
    o.lookup key = some (JValue.object b) := by
  unfold JObject.index at h
  cases hl : o.lookup key with
  | none => simp [hl, JValue.as_object] at h
  | some v =>
    cases v <;> simp_all [JValue.as_object]

theorem JValue.eq_object_of_as_object {jv : JValue} {o : JObject}
    (h : jv.as_object = Except.ok o) : jv = JValue.object o := by
  cases jv <;> simp_all [JValue.as_object]

/-- Lines written through `log` are appended to the sink in the order written. -/
theorem logger.foldl_log_lines (written : List String) (lg : logger) :
    (written.foldl logger.log lg).lines = lg.lines ++ written := by
  induction written generalizing lg with
  | nil => simp
  | cons x xs ih => simp [List.foldl, ih, logger.log]

theorem Node.wrote_lines (node : Node) (written : List String) :
    (node.wrote written).lg_.lines = node.lg_.lines ++ written := by
  simp [Node.wrote, logger.foldl_log_lines]

theorem Node.wrote_wrote (node : Node) (a b : List String) :
    (node.wrote a).wrote b = node.wrote (a ++ b) := by
  simp [Node.wrote, List.foldl_append]

/-- What a successful call of `parse_message` tells about its input and its result. -/
theorem Node.parse_message_ok_inv {json_parse : String → Except Exception JValue}
    {m : Members} {node : Node} {json_str : String} {msg : Message}
    (h : (Node.parse_message json_parse m node json_str).1 = Except.ok msg) :
    ∃ obj s d b t,
      json_parse json_str = Except.ok (JValue.object obj) ∧
      obj.lookup kSrc = some (JValue.string s) ∧
      obj.lookup kDest = some (JValue.string d) ∧
      obj.lookup kBody = some (JValue.object b) ∧
      b.lookup kType = some (JValue.string t) ∧
      msg.src_ = string_from_c_str s ∧
      msg.dest_ = string_from_c_str d ∧
      (∃ n, msg.type_ = (m.get_type n (string_from_c_str t)).1) ∧
      ((msg.type_ = MessageType.INIT ∧
          ∃ n r, (m.parse_init n b).1 = Except.ok r ∧ msg.body_ = r.map MsgBody.init) ∨
       (msg.type_ = MessageType.ECHO ∧
          ∃ n r, (m.parse_echo n b).1 = Except.ok r ∧ msg.body_ = r.map MsgBody.echo) ∨
       (msg.type_ = MessageType.TOPOLOGY ∧
          ∃ n r, (m.parse_topology n b).1 = Except.ok r ∧ msg.body_ = r.map MsgBody.topology) ∨
       (msg.type_ = MessageType.BROADCAST ∧
          ∃ n r, (m.parse_broadcast n b).1 = Except.ok r ∧ msg.body_ = r.map MsgBody.broadcast) ∨
       (msg.type_ = MessageType.READ ∧
          ∃ n r, (m.parse_read n b).1 = Except.ok r ∧ msg.body_ = r.map MsgBody.read)) := by
  unfold Node.parse_message at h
  split at h
  · simp at h
  rename_i jv hjv
  split at h
  · simp at h
  rename_i obj hobj
  split at h
  · simp at h
  rename_i s hs
  have hs1 := JObject.lookup_of_as_string hs
  simp only [JObject.index_of_lookup hs1] at h
  split at h
  · simp at h
  rename_i d hd
  have hd1 := JObject.lookup_of_as_string hd
  simp only [JObject.index_of_lookup hd1] at h
  split at h
  · simp at h
  rename_i b hb
  have hb1 := JObject.lookup_of_as_object hb
  split at h
  · simp at h
  rename_i t ht
  have ht1 := JObject.lookup_of_as_string ht
  simp only [JObject.index_of_lookup ht1] at h
  refine ⟨obj, s, d, b, t, ?_, hs1, hd1, hb1, ht1, ?_⟩
  · rw [hjv, JValue.eq_object_of_as_object hobj]
  split at h
  all_goals first
    | (simp at h)
    | (split at h
       · simp at h
       · rename_i hgt _ r hr
         simp only [Except.ok.injEq] at h
         subst h
         refine ⟨rfl, rfl, ⟨_, hgt.symm⟩, ?_⟩
         first
           | exact Or.inl ⟨rfl, _, r, hr, rfl⟩
           | exact Or.inr (Or.inl ⟨rfl, _, r, hr, rfl⟩)
           | exact Or.inr (Or.inr (Or.inl ⟨rfl, _, r, hr, rfl⟩))
           | exact Or.inr (Or.inr (Or.inr (Or.inl ⟨rfl, _, r, hr, rfl⟩)))
           | exact Or.inr (Or.inr (Or.inr (Or.inr ⟨rfl, _, r, hr, rfl⟩))))


/-- The envelope accessors read the same members as the lookups of the code. -/
theorem JValue.envelope_lookups {jv : JValue} {s d t : String}
    (hobj : jv.is_object = true) (hs : jv.src_string = some s) (hd : jv.dest_string = some d)
    (ht : jv.body_type = some t) :
    ∃ obj b, jv = JValue.object obj ∧
      obj.lookup kSrc = some (JValue.string s) ∧
      obj.lookup kDest = some (JValue.string d) ∧
      obj.lookup kBody = some (JValue.object b) ∧
      b.lookup kType = some (JValue.string t) := by
  cases jv with
  | object obj =>
    simp only [JValue.src_string, JValue.member, Option.bind_eq_some] at hs
    obtain ⟨v, hv, hvs⟩ := hs
    cases v <;> simp [JValue.string_value] at hvs
    subst hvs
    simp only [JValue.dest_string, JValue.member, Option.bind_eq_some] at hd
    obtain ⟨w, hw, hws⟩ := hd
    cases w <;> simp [JValue.string_value] at hws
    subst hws
    simp only [JValue.body_type, JValue.body_object, JValue.member] at ht
    cases hb : List.lookup kBody obj with
    | none => simp [hb] at ht
    | some bv =>
      rw [hb] at ht
      cases bv with
      | object b =>
        simp only [Option.some_bind, JValue.member, Option.bind_eq_some] at ht
        obtain ⟨u, hu, hus⟩ := ht
        cases u <;> simp [JValue.string_value] at hus
        subst hus
        exact ⟨obj, b, rfl, hv, hw, hb, hu⟩
      | _ => simp at ht
  | _ => simp [JValue.is_object] at hobj

/-- The converse: the members the code looks up are the values of the accessors. -/
theorem JValue.accessors_of_lookups {obj b : JObject} {s d t : String}
    (h1 : obj.lookup kSrc = some (JValue.string s))
    (h2 : obj.lookup kDest = some (JValue.string d))
    (h3 : obj.lookup kBody = some (JValue.object b))
    (h4 : b.lookup kType = some (JValue.string t)) :
    (JValue.object obj).is_object = true ∧
    (JValue.object obj).src_string = some s ∧
    (JValue.object obj).dest_string = some d ∧
    (JValue.object obj).body_object = some (JValue.object b) ∧
    (JValue.object obj).body_type = some t := by
  simp [JValue.is_object, JValue.src_string, JValue.dest_string, JValue.body_object,
    JValue.body_type, JValue.member, JValue.string_value, h1, h2, h3, h4]

/-- Once the envelope has been read, the node after the call is the node before it
with the log line of data.h 228 and then the lines of the helper members, whatever
the switch does; when the helper members are silent there are no further lines. -/
theorem Node.parse_message_snd_of_envelope {json_parse : String → Except Exception JValue}
    (m : Members) (node : Node) {json_str : String} {obj b : JObject} {s d t : String}
    (h0 : json_parse json_str = Except.ok (JValue.object obj))
    (h1 : obj.lookup kSrc = some (JValue.string s))
    (h2 : obj.lookup kDest = some (JValue.string d))
    (h3 : obj.lookup kBody = some (JValue.object b))
    (h4 : b.lookup kType = some (JValue.string t)) :
    ∃ extra, (Node.parse_message json_parse m node json_str).2 =
        Node.wrote { node with lg_ := node.lg_.log ("received type: " ++ string_from_c_str t) }
          extra ∧
      (m.silent → extra = []) := by
  unfold Node.parse_message
  simp only [h0, JValue.as_object, JObject.index_of_lookup h1, JObject.index_of_lookup h2,
    JObject.index_of_lookup h3, JObject.index_of_lookup h4, JValue.as_string]
  split
  all_goals first
    | exact ⟨_, rfl, fun hs => hs.1 _ _⟩
    | (split <;>
        exact ⟨_, Node.wrote_wrote _ _ _, fun hs => by
          obtain ⟨g1, g2, g3, g4, g5, g6⟩ := hs
          simp [g1, g2, g3, g4, g5, g6]⟩)

/-- A line that `boost::json::parse` rejects makes the call throw and leaves the node
as it was. -/
theorem Node.parse_message_of_parse_error {json_parse : String → Except Exception JValue}
    (m : Members) (node : Node) {json_str : String} {e : Exception}
    (h : json_parse json_str = Except.error e) :
    Node.parse_message json_parse m node json_str = (Except.error e, node) := by
  unfold Node.parse_message
  simp [h]

/-- A line whose envelope is malformed makes the call throw before the log line is
written. -/
theorem Node.parse_message_of_malformed {json_parse : String → Except Exception JValue}
    (m : Members) (node : Node) {json_str : String} {jv : JValue}
    (hjv : json_parse json_str = Except.ok jv)
    (hbad : jv.is_object = false ∨ jv.src_string = none ∨ jv.dest_string = none ∨
      jv.body_object = none ∨ jv.body_type = none) :
    ∃ e, Node.parse_message json_parse m node json_str = (Except.error e, node) := by
  unfold Node.parse_message
  simp only [hjv]
  split
  · exact ⟨_, rfl⟩
  rename_i obj hobj
  have hjo := JValue.eq_object_of_as_object hobj
  subst hjo
  split
  · exact ⟨_, rfl⟩
  rename_i s hs
  have hs1 := JObject.lookup_of_as_string hs
  simp only [JObject.index_of_lookup hs1]
  split
  · exact ⟨_, rfl⟩
  rename_i d hd
  have hd1 := JObject.lookup_of_as_string hd
  simp only [JObject.index_of_lookup hd1]
  split
  · exact ⟨_, rfl⟩
  rename_i b hb
  have hb1 := JObject.lookup_of_as_object hb
  split
  · exact ⟨_, rfl⟩
  rename_i t ht
  have ht1 := JObject.lookup_of_as_string ht
  exfalso
  have hacc := JValue.accessors_of_lookups hs1 hd1 hb1 ht1
  rcases hbad with h | h | h | h | h <;> simp [hacc] at h

/-- When `get_type` answers none of the five request tags, the call throws
`runtime_error("Unexpected message")`. -/
theorem Node.parse_message_unexpected {json_parse : String → Except Exception JValue}
    (m : Members) (node : Node) {json_str : String} {obj b : JObject} {s d t : String}
    (h0 : json_parse json_str = Except.ok (JValue.object obj))
    (h1 : obj.lookup kSrc = some (JValue.string s))
    (h2 : obj.lookup kDest = some (JValue.string d))
    (h3 : obj.lookup kBody = some (JValue.object b))
    (h4 : b.lookup kType = some (JValue.string t))
    (hty : ∀ n, (m.get_type n (string_from_c_str t)).1 ∉ [MessageType.INIT, MessageType.ECHO,
      MessageType.TOPOLOGY, MessageType.BROADCAST, MessageType.READ]) :
    (Node.parse_message json_parse m node json_str).1 =
      Except.error (Exception.runtime_error "Unexpected message") := by
  unfold Node.parse_message
  simp only [h0, JValue.as_object, JObject.index_of_lookup h1, JObject.index_of_lookup h2,
    JObject.index_of_lookup h3, JObject.index_of_lookup h4, JValue.as_string]
  split
  all_goals first
    | rfl
    | (rename_i hgt
       exfalso
       exact hty _ (by rw [hgt]; simp))

/-- A string without a NUL character survives the trip through `c_str()`. -/
theorem string_from_c_str_of_no_nul (s : String) (h : ∀ c ∈ s.data, c.toNat ≠ 0) :
    string_from_c_str s = s := by
  unfold string_from_c_str
  have : s.data.takeWhile (fun c => c.toNat != 0) = s.data := by
    rw [List.takeWhile_eq_self_iff]
    intro c hc
    simpa using h c hc
  rw [this]

/-! ## Further lemmas on `parse_message` -/

/-- Every parsed JSON value either has a malformed envelope or names its `src`,
`dest` and `type` strings. -/
theorem JValue.envelope_cases (jv : JValue) :
    (jv.is_object = false ∨ jv.src_string = none ∨ jv.dest_string = none ∨
      jv.body_object = none ∨ jv.body_type = none) ∨
    (∃ s d t, jv.is_object = true ∧ jv.src_string = some s ∧ jv.dest_string = some d ∧
      jv.body_type = some t) := by
  cases ho : jv.is_object with
  | false => exact Or.inl (Or.inl rfl)
  | true =>
    cases hs : jv.src_string with
    | none => exact Or.inl (Or.inr (Or.inl rfl))
    | some s =>
      cases hd : jv.dest_string with
      | none => exact Or.inl (Or.inr (Or.inr (Or.inl rfl)))
      | some d =>
        cases ht : jv.body_type with
        | none => exact Or.inl (Or.inr (Or.inr (Or.inr (Or.inr rfl))))
        | some t => exact Or.inr ⟨s, d, t, rfl, rfl, rfl, rfl⟩

/-- The spec's `get_type` answers a request tag exactly on the five request type
strings, and then the tag of that string. -/
theorem Node.get_type_request (type : String) :
    Node.get_type type ∈ [MessageType.INIT, MessageType.ECHO, MessageType.TOPOLOGY,
      MessageType.BROADCAST, MessageType.READ] ↔ type ∈ request_types := by
  unfold Node.get_type request_types
  simp only [kInitType, kInitOkType, kEchoType, kEchoOkType, kTopologyType, kTopologyOkType,
    kReadType, kReadOkType, kBroadcastType, kBroadcastOkType]
  split_ifs <;> simp_all

/-- On a request type string the spec's `get_type` answers the tag that the string
names. -/
theorem Node.get_type_eq_request_tag (type : String) (h : type ∈ request_types) :
    request_tag type = some (Node.get_type type) := by
  unfold request_types at h
  simp only [List.mem_cons, List.mem_singleton, List.not_mem_nil, or_false] at h
  rcases h with h | h | h | h | h <;> subst h <;> decide

/-- The spec's `parse_*` functions never return a null pointer. -/
theorem Node.parse_init_not_null {b : JObject} {r : Option Init}
    (h : Node.parse_init b = Except.ok r) : ∃ i, r = some i := by
  unfold Node.parse_init at h
  split at h <;> simp at h
  exact ⟨_, h.symm⟩

theorem Node.parse_echo_not_null {b : JObject} {r : Option Echo}
    (h : Node.parse_echo b = Except.ok r) : ∃ i, r = some i := by
  unfold Node.parse_echo at h
  split at h <;> simp at h
  exact ⟨_, h.symm⟩

theorem Node.parse_topology_not_null {b : JObject} {r : Option Topology}
    (h : Node.parse_topology b = Except.ok r) : ∃ i, r = some i := by
  unfold Node.parse_topology at h
  split at h <;> simp at h
  exact ⟨_, h.symm⟩

theorem Node.parse_broadcast_not_null {b : JObject} {r : Option Broadcast}
    (h : Node.parse_broadcast b = Except.ok r) : ∃ i, r = some i := by
  unfold Node.parse_broadcast at h
  split at h
  · simp at h
  · split at h
    · simp at h
      exact ⟨_, h.symm⟩
    · split at h <;> simp at h
      exact ⟨_, h.symm⟩

theorem Node.parse_read_not_null {b : JObject} {r : Option Read}
    (h : Node.parse_read b = Except.ok r) : ∃ i, r = some i := by
  unfold Node.parse_read at h
  split at h <;> simp at h
  exact ⟨_, h.symm⟩

/-- With the spec's `get_type`, a line whose type string holds no NUL character and
is none of the five request types makes `parse_message` throw. -/
theorem Node.parse_message_rejects_other_types
    (json_parse : String → Except Exception JValue) (m : Members) (node : Node)
    (json_str : String) (jv : JValue) (t : String)
    (hm : ∀ n type, (m.get_type n type).1 = Node.get_type type)
    (hjv : json_parse json_str = Except.ok jv) (ht : jv.body_type = some t)
    (hnul : ∀ c ∈ t.data, c.toNat ≠ 0) (hother : t ∉ request_types) :
    ∃ e, (Node.parse_message json_parse m node json_str).1 = Except.error e := by
  rcases JValue.envelope_cases jv with hbad | ⟨s, d, t1, ho, hs, hd, ht1⟩
  · obtain ⟨e, he⟩ := Node.parse_message_of_malformed m node hjv hbad
    exact ⟨e, by rw [he]⟩
  · rw [ht] at ht1
    cases ht1
    obtain ⟨obj, b, hjo, h1, h2, h3, h4⟩ := JValue.envelope_lookups ho hs hd ht
    subst hjo
    refine ⟨_, Node.parse_message_unexpected m node hjv h1 h2 h3 h4 ?_⟩
    intro n
    rw [string_from_c_str_of_no_nul t hnul, hm, Node.get_type_request]
    exact hother

/-- With the spec's `get_type`, when no NUL character occurs in the `src`, `dest` and
`type` strings of a line, a returned Message carries these `src` and `dest` strings
and the tag of the type string. -/
theorem Node.parse_message_fields_of_no_nul
    (json_parse : String → Except Exception JValue) (m : Members) (node : Node)
    (json_str : String) (jv : JValue) (msg : Message)
    (hm : ∀ n type, (m.get_type n type).1 = Node.get_type type)
    (hjv : json_parse json_str = Except.ok jv)
    (hnul : ∀ x, (jv.src_string = some x ∨ jv.dest_string = some x ∨ jv.body_type = some x) →
      ∀ c ∈ x.data, c.toNat ≠ 0)
    (hok : (Node.parse_message json_parse m node json_str).1 = Except.ok msg) :
    jv.src_string = some msg.src_ ∧ jv.dest_string = some msg.dest_ ∧
      (jv.body_type.bind request_tag) = some msg.type_ := by
  obtain ⟨obj, s, d, b, t, h0, h1, h2, h3, h4, hsrc, hdest, ⟨n, htype⟩, hbody⟩ :=
    Node.parse_message_ok_inv hok
  rw [hjv] at h0
  cases h0
  obtain ⟨_, hs, hd, _, ht⟩ := JValue.accessors_of_lookups h1 h2 h3 h4
  rw [string_from_c_str_of_no_nul s (hnul s (Or.inl hs))] at hsrc
  rw [string_from_c_str_of_no_nul d (hnul d (Or.inr (Or.inl hd)))] at hdest
  rw [string_from_c_str_of_no_nul t (hnul t (Or.inr (Or.inr ht)))] at htype
  refine ⟨by rw [hs, hsrc], by rw [hd, hdest], ?_⟩
  rw [hm] at htype
  have htype1 : msg.type_ = Node.get_type t := htype
  rw [ht, Option.some_bind, htype1]
  apply Node.get_type_eq_request_tag
  rw [← Node.get_type_request, ← htype1]
  rcases hbody with h | h | h | h | h <;> simp [h.1]

/-! ## Lemmas on the handshake and on the id counter -/

/-- The spec's `handle_init` keeps a READY node READY. -/
theorem Node.handle_init_keeps_ready (node : Node) (msg : Message)
    (h : node.state_ = State.READY) : (node.handle_init msg).2.state_ = State.READY := by
  unfold Node.handle_init
  split <;> simp [h]

/-- From READY on there is no step `WAITING_FOR_INIT → READY`. -/
theorem Node.ready_transitions_of_ready (msgs : List Message) (node : Node)
    (h : node.state_ = State.READY) : ready_transitions (node.state_trace msgs) = 0 := by
  induction msgs generalizing node with
  | nil => simp [Node.state_trace, ready_transitions]
  | cons msg rest ih =>
    have hn := Node.handle_init_keeps_ready node msg h
    have ih1 := ih (node.handle_init msg).2 hn
    cases rest with
    | nil =>
      simp [Node.state_trace, ready_transitions, h]
    | cons m2 rest2 =>
      simp only [Node.state_trace] at ih1 ⊢
      simp only [ready_transitions, h, ih1]
      simp

/-- The ids of `n` draws, as long as the counter stays below `2 ^ 32`. -/
theorem Node.draw_ids_eq_range (n : Nat) (node : Node)
    (h : node.msg_id + n ≤ UINT_RANGE) : Node.draw_ids n node = List.range' node.msg_id n := by
  induction n generalizing node with
  | zero => simp [Node.draw_ids]
  | succ k ih =>
    cases k with
    | zero => simp [Node.draw_ids, Node.next_msg_id]
    | succ j =>
      have hlt : node.msg_id + 1 < UINT_RANGE := by omega
      have hnext : (node.next_msg_id).2.msg_id = node.msg_id + 1 := by
        simp [Node.next_msg_id, Nat.mod_eq_of_lt hlt]
      have ih1 := ih (node.next_msg_id).2 (by rw [hnext]; omega)
      rw [Node.draw_ids, ih1, hnext]
      simp [Node.next_msg_id, List.range'_succ]

/-- The ids of `n` draws in general: the counter counts modulo `2 ^ 32`. -/
theorem Node.draw_ids_eq_map (n : Nat) (node : Node) (h : node.msg_id < UINT_RANGE) :
    Node.draw_ids n node =
      (List.range n).map (fun i => (node.msg_id + i) % UINT_RANGE) := by
  induction n generalizing node with
  | zero => simp [Node.draw_ids]
  | succ k ih =>
    have hnext : (node.next_msg_id).2.msg_id = (node.msg_id + 1) % UINT_RANGE := by
      simp [Node.next_msg_id]
    have hpos : 0 < UINT_RANGE := by unfold UINT_RANGE; norm_num
    have ih1 := ih (node.next_msg_id).2 (by rw [hnext]; exact Nat.mod_lt _ hpos)
    rw [Node.draw_ids, ih1, hnext, List.range_succ_eq_map, List.map_cons, List.map_map]
    congr 1
    · simp [Node.next_msg_id, Nat.mod_eq_of_lt h]
    · apply List.map_congr_left
      intro i _
      simp only [Function.comp, Nat.succ_eq_add_one]
      rw [Nat.mod_add_mod]
      congr 1
      omega

/-- The id handed out by draw number `i + 1` of a fresh node. -/
theorem Node.draw_ids_fresh_get (n i : Nat) (h : i < n) :
    (Node.draw_ids n Node.fresh)[i]? = some ((1 + i) % UINT_RANGE) := by
  rw [Node.draw_ids_eq_map n Node.fresh (by unfold Node.fresh Node.msg_id_init UINT_RANGE; norm_num)]
  rw [List.getElem?_map, List.getElem?_range h]
  rfl

/-! ## The scenarios of the spec -/

/-- A reply-shaped line is rejected: the type `init_ok` is not parsed. -/
theorem Node.parse_message_rejects_init_ok :
    (Node.parse_message readJson Node.spec_members Node.waiting line_init_ok).1 =
      Except.error (Exception.runtime_error "Unexpected message") :=
  rfl

/-- The init scenario: the init line is parsed to an INIT Message, and handling it
answers with one init_ok from `n1` to `c1` in reply to `1` and leaves the node READY
with the identity and the peers of the payload. -/
theorem Node.scenario_init :
    ∃ msg, (Node.parse_message readJson Node.spec_members Node.waiting line_init).1 =
        Except.ok msg ∧
      (Node.waiting.handle_init msg).1 =
        Except.ok [{ src_ := "n1", dest_ := "c1", type_ := MessageType.INIT_OK,
                     body_ := some (MsgBody.init_ok { in_reply_to_ := 1 }) }] ∧
      (Node.waiting.handle_init msg).2.state_ = State.READY ∧
      (Node.waiting.handle_init msg).2.id_ = "n1" ∧
      (Node.waiting.handle_init msg).2.peers_ = ["n1", "n2"] :=
  ⟨_, rfl, rfl, rfl, rfl, rfl⟩

/-- The helper members of the spec write no log line. -/
theorem Node.spec_members_silent : Node.spec_members.silent :=
  ⟨fun _ _ => rfl, fun _ _ => rfl, fun _ _ => rfl, fun _ _ => rfl, fun _ _ => rfl,
   fun _ _ => rfl⟩

/-- With a `get_type` that logs, the echo line leaves two lines in the log: the line
of data.h 228 first, then the line of the helper. -/
theorem Node.parse_message_log_with_chatty_get_type :
    (Node.parse_message readJson Node.chatty_members Node.fresh line_echo).2.lg_.lines =
      ["received type: echo", "get_type: echo"] := by
  decide

/-! ## The properties C1-C10 -/

/-- C1 (evaluation at a failing input): the body `type` of `line_nul_type` is the
eight-character string `read`, NUL, `_ok`, which is none of init, echo, topology,
broadcast, read; `parse_message` nevertheless returns a READ Message, because the
type is copied through `c_str()` and ends at the NUL. -/
theorem Node.parse_message_accepts_type_cut_at_nul :
    (readJson line_nul_type).toOption.bind JValue.body_type = some type_with_nul ∧
    type_with_nul.length = 8 ∧
    type_with_nul ∉ request_types ∧
    (Node.parse_message readJson Node.spec_members Node.fresh line_nul_type).1 =
      Except.ok { src_ := "c1", dest_ := "n1", type_ := MessageType.READ,
                  body_ := some (MsgBody.read (Read.ctor 7)) } :=
  ⟨by decide, by decide, by decide, rfl⟩

/-- C2: `parse_message` throws, and returns no Message, for every line that is not
valid JSON, whose top-level value is not an object, whose `src` or `dest` is absent or
not a string, whose `body` is absent or not an object, or whose body `type` is absent
or not a string. -/
theorem Node.parse_message_fails_on_malformed_line
    (json_parse : String → Except Exception JValue) (m : Members) (node : Node)
    (json_str : String)
    (h : (∃ e, json_parse json_str = Except.error e) ∨
      (∃ jv, json_parse json_str = Except.ok jv ∧
        (jv.is_object = false ∨ jv.src_string = none ∨ jv.dest_string = none ∨
          jv.body_object = none ∨ jv.body_type = none))) :
    (∃ e, (Node.parse_message json_parse m node json_str).1 = Except.error e) ∧
    (∀ msg, (Node.parse_message json_parse m node json_str).1 ≠ Except.ok msg) := by
  have key : ∃ e, (Node.parse_message json_parse m node json_str).1 = Except.error e := by
    rcases h with ⟨e, he⟩ | ⟨jv, hjv, hbad⟩
    · exact ⟨e, by rw [Node.parse_message_of_parse_error m node he]⟩
    · obtain ⟨e, he⟩ := Node.parse_message_of_malformed m node hjv hbad
      exact ⟨e, by rw [he]⟩
  refine ⟨key, ?_⟩
  obtain ⟨e, he⟩ := key
  intro msg hmsg
  rw [he] at hmsg
  cases hmsg

/-- C2 at two lines: one that is not JSON, and the echo line without its `src`. -/
theorem Node.parse_message_fails_on_malformed_line_witness :
    ((∃ e, readJson "not json" = Except.error e) ∧
      ∃ e, (Node.parse_message readJson Node.spec_members Node.fresh "not json").1 =
        Except.error e) ∧
    ((readJson line_no_src).toOption.bind JValue.src_string = none ∧
      ∃ e, (Node.parse_message readJson Node.spec_members Node.fresh line_no_src).1 =
        Except.error e) :=
  ⟨⟨⟨_, rfl⟩,
    (Node.parse_message_fails_on_malformed_line readJson Node.spec_members Node.fresh
      "not json" (Or.inl ⟨_, rfl⟩)).1⟩,
   ⟨by decide,
    (Node.parse_message_fails_on_malformed_line readJson Node.spec_members Node.fresh
      line_no_src (Or.inr ⟨_, rfl, Or.inr (Or.inl (by decide))⟩)).1⟩⟩

/-- C3 (evaluation at a failing input): the `src` string of `line_nul_src` is the
three-character string `c`, NUL, `1`; `parse_message` succeeds and the `src_` of the
returned Message is the one-character string `c`, not the `src` of the envelope. -/
theorem Node.parse_message_cuts_src_at_nul :
    (readJson line_nul_src).toOption.bind JValue.src_string = some src_with_nul ∧
    src_with_nul.length = 3 ∧
    (Node.parse_message readJson Node.spec_members Node.fresh line_nul_src).1 =
      Except.ok { src_ := "c", dest_ := "n1", type_ := MessageType.READ,
                  body_ := some (MsgBody.read (Read.ctor 7)) } ∧
    "c" ≠ src_with_nul :=
  ⟨by decide, by decide, rfl, by decide⟩

/-- C4: for every Init payload `i`, the InitOk built from `i.msg_id_` has
`in_reply_to_ = i.msg_id_`; handling a message that carries `i` from state
WAITING_FOR_INIT leaves the node READY and emits exactly one init_ok whose
`in_reply_to_` is `i.msg_id_`; and whatever messages are handled afterwards, the step
WAITING_FOR_INIT → READY occurs exactly once. -/
theorem Node.handle_init_reaches_ready_once (node : Node) (msg : Message) (i : Init)
    (later : List Message)
    (hstate : node.state_ = State.WAITING_FOR_INIT)
    (hbody : msg.body_ = some (MsgBody.init i)) :
    (InitOk.ctor i.msg_id_).in_reply_to_ = i.msg_id_ ∧
    (node.handle_init msg).2.state_ = State.READY ∧
    (node.handle_init msg).1 =
      Except.ok [{ src_ := msg.dest_, dest_ := msg.src_, type_ := MessageType.INIT_OK,
                   body_ := some (MsgBody.init_ok { in_reply_to_ := i.msg_id_ }) }] ∧
    ready_transitions (node.state_trace (msg :: later)) = 1 := by
  have hready : (node.handle_init msg).2.state_ = State.READY := by
    simp [Node.handle_init, hbody]
  refine ⟨rfl, hready, ?_, ?_⟩
  · simp [Node.handle_init, hbody, Message.ctor_body, InitOk.ctor]
  · have h0 := Node.ready_transitions_of_ready later (node.handle_init msg).2 hready
    cases later with
    | nil => simp [Node.state_trace, ready_transitions, hstate, hready]
    | cons m2 rest =>
      simp only [Node.state_trace] at h0 ⊢
      rw [hready] at h0
      simp only [ready_transitions, hstate, hready, h0]
      simp

/-- C4 at the init message of the scenario in the spec, followed by a second init. -/
theorem Node.handle_init_reaches_ready_once_witness :
    (Node.waiting.handle_init
        { src_ := "c1", dest_ := "n1", type_ := MessageType.INIT,
          body_ := some (MsgBody.init (Init.ctor 1 "n1" ["n1", "n2"])) }).2.state_
      = State.READY ∧
    (Node.waiting.handle_init
        { src_ := "c1", dest_ := "n1", type_ := MessageType.INIT,
          body_ := some (MsgBody.init (Init.ctor 1 "n1" ["n1", "n2"])) }).1
      = Except.ok [{ src_ := "n1", dest_ := "c1", type_ := MessageType.INIT_OK,
                     body_ := some (MsgBody.init_ok { in_reply_to_ := 1 }) }] ∧
    ready_transitions (Node.waiting.state_trace
        [{ src_ := "c1", dest_ := "n1", type_ := MessageType.INIT,
           body_ := some (MsgBody.init (Init.ctor 1 "n1" ["n1", "n2"])) },
         { src_ := "c1", dest_ := "n1", type_ := MessageType.INIT,
           body_ := some (MsgBody.init (Init.ctor 5 "n1" ["n1", "n2"])) }]) = 1 :=
  (Node.handle_init_reaches_ready_once Node.waiting
    { src_ := "c1", dest_ := "n1", type_ := MessageType.INIT,
      body_ := some (MsgBody.init (Init.ctor 1 "n1" ["n1", "n2"])) }
    (Init.ctor 1 "n1" ["n1", "n2"])
    [{ src_ := "c1", dest_ := "n1", type_ := MessageType.INIT,
       body_ := some (MsgBody.init (Init.ctor 5 "n1" ["n1", "n2"])) }]
    rfl rfl).2

/-- C5: for every Echo `e` and every fresh id `k`, the reply
`EchoOk(k, e.msg_id_, e.echo_)` has `msg_id_ = k`, `in_reply_to_ = e.msg_id_` and
`echo_ = e.echo_`. -/
theorem EchoOk.reply_fields (e : Echo) (k : Nat) :
    (EchoOk.ctor k e.msg_id_ e.echo_).msg_id_ = k ∧
    (EchoOk.ctor k e.msg_id_ e.echo_).in_reply_to_ = e.msg_id_ ∧
    (EchoOk.ctor k e.msg_id_ e.echo_).echo_ = e.echo_ :=
  ⟨rfl, rfl, rfl⟩

/-- C6 (evaluation at a failing input): `BroadcastOk()` leaves `in_reply_to_` present
with the value `0`, not absent, so the reply built for a Broadcast without `msg_id`
does not carry the `msg_id_` of that Broadcast. -/
theorem BroadcastOk.ctor_default_in_reply_to_present :
    BroadcastOk.ctor_default.in_reply_to_ = some 0 ∧
    BroadcastOk.ctor_default.in_reply_to_ ≠ (Broadcast.ctor none 5).msg_id_ :=
  ⟨rfl, by decide⟩

/-- The parts of C6 that hold: `Broadcast(m, v)` stores `m` and `v` unchanged, and
`BroadcastOk(n)` has `in_reply_to_` present and equal to `n`. -/
theorem Broadcast.ctor_fields (m : Option Nat) (v n : Nat) :
    (Broadcast.ctor m v).msg_id_ = m ∧ (Broadcast.ctor m v).message_ = v ∧
    (BroadcastOk.ctor n).in_reply_to_ = some n :=
  ⟨rfl, rfl, rfl⟩

/-- C7 (counterexample): the counter of a fresh node wraps.  Draw number `2 ^ 32 - 1`
hands out `4294967295`, the next draw hands out `0`, which is not greater, and the
draw after that hands out `1`, the id of the first draw, again. -/
theorem Node.draw_ids_wrap_around :
    (Node.draw_ids 4294967297 Node.fresh)[0]? = some 1 ∧
    (Node.draw_ids 4294967297 Node.fresh)[4294967294]? = some 4294967295 ∧
    (Node.draw_ids 4294967297 Node.fresh)[4294967295]? = some 0 ∧
    (Node.draw_ids 4294967297 Node.fresh)[4294967296]? = some 1 := by
  refine ⟨?_, ?_, ?_, ?_⟩ <;>
    (rw [Node.draw_ids_fresh_get _ _ (by norm_num)]; unfold UINT_RANGE; norm_num)

/-- C7 (amended): the first id drawn from `Node::msg_id` is 1, and in every sequence
of at most `2 ^ 32 - 1` draws from a fresh node the ids are `1, 2, ..., n`: each is
strictly greater than all ids before it, and no two are equal. -/
theorem Node.draw_ids_increasing_before_wrap (n : Nat) (h : n ≤ UINT_RANGE - 1) :
    (Node.fresh.next_msg_id).1 = 1 ∧
    Node.draw_ids n Node.fresh = List.range' 1 n ∧
    List.Pairwise (fun a b => a < b) (Node.draw_ids n Node.fresh) ∧
    (Node.draw_ids n Node.fresh).Nodup := by
  have hr : Node.draw_ids n Node.fresh = List.range' 1 n := by
    have := Node.draw_ids_eq_range n Node.fresh (by
      have h1 : Node.fresh.msg_id = 1 := rfl
      have h2 : 1 ≤ UINT_RANGE := by unfold UINT_RANGE; norm_num
      rw [h1]; omega)
    simpa [Node.fresh, Node.msg_id_init] using this
  refine ⟨rfl, hr, ?_, ?_⟩
  · rw [hr]; exact List.pairwise_lt_range' 1 n
  · rw [hr]; exact List.nodup_range' 1 n

/-- C7 (amended) at four draws: the ids are 1, 2, 3, 4. -/
theorem Node.draw_ids_increasing_before_wrap_witness :
    4 ≤ UINT_RANGE - 1 ∧ Node.draw_ids 4 Node.fresh = [1, 2, 3, 4] ∧
    List.Pairwise (fun a b => a < b) (Node.draw_ids 4 Node.fresh) :=
  ⟨by decide,
   (Node.draw_ids_increasing_before_wrap 4 (by decide)).2.1,
   (Node.draw_ids_increasing_before_wrap 4 (by decide)).2.2.1⟩

/-- C8 (counterexample): the echo line without `src` has the body type `echo`, and
`parse_message` writes no log line for it: the call throws on `src` before the log
statement is reached. -/
theorem Node.parse_message_no_log_without_src :
    (readJson line_no_src).toOption.bind JValue.body_type = some "echo" ∧
    Node.fresh.lg_.lines = [] ∧
    (Node.parse_message readJson Node.spec_members Node.fresh line_no_src).2.lg_.lines = [] :=
  ⟨by decide, rfl, by decide⟩

/-- C8 (amended): for every line whose envelope is well formed (valid JSON whose
top-level value is an object with string `src` and `dest` and an object `body` with a
string `type`), `parse_message` itself writes one line to the logger, whether or not
it then returns a Message, ahead of anything that `get_type` and the `parse_*`
functions write; when the type string holds no NUL character that line is
"received type: " followed by the type string; and when those functions write no log
line, that line is the only one written. -/
theorem Node.parse_message_logs_once_after_envelope
    (json_parse : String → Except Exception JValue) (m : Members) (node : Node)
    (json_str : String) (jv : JValue) (s d t : String)
    (hjv : json_parse json_str = Except.ok jv) (hobj : jv.is_object = true)
    (hs : jv.src_string = some s) (hd : jv.dest_string = some d)
    (ht : jv.body_type = some t) :
    ∃ l extra, (Node.parse_message json_parse m node json_str).2.lg_.lines
          = node.lg_.lines ++ l :: extra ∧
      ((∀ c ∈ t.data, c.toNat ≠ 0) → l = "received type: " ++ t) ∧
      (m.silent → extra = []) := by
  obtain ⟨obj, b, hjo, h1, h2, h3, h4⟩ := JValue.envelope_lookups hobj hs hd ht
  subst hjo
  obtain ⟨extra, he, hsilent⟩ := Node.parse_message_snd_of_envelope m node hjv h1 h2 h3 h4
  refine ⟨"received type: " ++ string_from_c_str t, extra, ?_, ?_, hsilent⟩
  · rw [he, Node.wrote_lines]
    simp [logger.log]
  · intro hnul
    rw [string_from_c_str_of_no_nul t hnul]

/-- C8 (amended) at the echo line of the scenario in the spec, with the helper
members of the spec, which are silent: the one line written is
"received type: echo". -/
theorem Node.parse_message_logs_once_after_envelope_witness :
    (readJson line_echo).toOption.bind JValue.body_type = some "echo" ∧
    Node.spec_members.silent ∧
    (Node.parse_message readJson Node.spec_members Node.fresh line_echo).2.lg_.lines =
      ["received type: echo"] ∧
    ∃ l extra,
      (Node.parse_message readJson Node.spec_members Node.fresh line_echo).2.lg_.lines
          = Node.fresh.lg_.lines ++ l :: extra ∧
      ((∀ c ∈ "echo".data, c.toNat ≠ 0) → l = "received type: " ++ "echo") ∧
      (Node.spec_members.silent → extra = []) :=
  ⟨by decide,
   ⟨fun _ _ => rfl, fun _ _ => rfl, fun _ _ => rfl, fun _ _ => rfl, fun _ _ => rfl,
    fun _ _ => rfl⟩,
   by decide,
   Node.parse_message_logs_once_after_envelope readJson Node.spec_members Node.fresh
     line_echo _ "c1" "n1" "echo" rfl (by decide) (by decide) (by decide) (by decide)⟩

/-- C9: with the `parse_*` functions of the spec, every Message that `parse_message`
returns has a non-null `body_` whose payload variant is the one its `type_` names, and
its `type_` is one of INIT, ECHO, TOPOLOGY, BROADCAST, READ (so neither UNKNOWN nor
one of the `*_OK` values). -/
theorem Node.parse_message_tag_agrees
    (json_parse : String → Except Exception JValue)
    (get_type : Node → String → MessageType × List String)
    (node : Node) (json_str : String) (msg : Message)
    (hok : (Node.parse_message json_parse { Node.spec_members with get_type := get_type }
              node json_str).1 = Except.ok msg) :
    msg.body_ ≠ none ∧ msg.tag_agrees = true ∧
    msg.type_ ∈ [MessageType.INIT, MessageType.ECHO, MessageType.TOPOLOGY,
      MessageType.BROADCAST, MessageType.READ] ∧
    msg.type_ ≠ MessageType.UNKNOWN ∧
    msg.type_ ∉ [MessageType.INIT_OK, MessageType.ECHO_OK, MessageType.TOPOLOGY_OK,
      MessageType.BROADCAST_OK, MessageType.READ_OK] := by
  obtain ⟨obj, s, d, b, t, _, _, _, _, _, _, _, _, hbody⟩ := Node.parse_message_ok_inv hok
  rcases hbody with ⟨hty, _, r, hr, hb⟩ | ⟨hty, _, r, hr, hb⟩ | ⟨hty, _, r, hr, hb⟩ |
    ⟨hty, _, r, hr, hb⟩ | ⟨hty, _, r, hr, hb⟩
  · obtain ⟨i, hi⟩ := Node.parse_init_not_null hr
    subst hi
    simp [Message.tag_agrees, hty, hb]
  · obtain ⟨i, hi⟩ := Node.parse_echo_not_null hr
    subst hi
    simp [Message.tag_agrees, hty, hb]
  · obtain ⟨i, hi⟩ := Node.parse_topology_not_null hr
    subst hi
    simp [Message.tag_agrees, hty, hb]
  · obtain ⟨i, hi⟩ := Node.parse_broadcast_not_null hr
    subst hi
    simp [Message.tag_agrees, hty, hb]
  · obtain ⟨i, hi⟩ := Node.parse_read_not_null hr
    subst hi
    simp [Message.tag_agrees, hty, hb]

/-- C9 at the init line of the scenario in the spec. -/
theorem Node.parse_message_tag_agrees_witness :
    (Node.parse_message readJson Node.spec_members Node.fresh line_init).1 =
      Except.ok { src_ := "c1", dest_ := "n1", type_ := MessageType.INIT,
                  body_ := some (MsgBody.init (Init.ctor 1 "n1" ["n1", "n2"])) } ∧
    (Message.mk "c1" "n1" MessageType.INIT
      (some (MsgBody.init (Init.ctor 1 "n1" ["n1", "n2"])))).tag_agrees = true :=
  ⟨rfl,
   (Node.parse_message_tag_agrees readJson (fun _ type => (Node.get_type type, []))
     Node.fresh line_init
     { src_ := "c1", dest_ := "n1", type_ := MessageType.INIT,
       body_ := some (MsgBody.init (Init.ctor 1 "n1" ["n1", "n2"])) } rfl).2.1⟩

/-- C10: whether it returns or throws, `parse_message` leaves `state_`, `id_`,
`peers_`, `handlers_` and the `msg_id` counter of the node as they were; the log only
grows. -/
theorem Node.parse_message_frame
    (json_parse : String → Except Exception JValue) (m : Members) (node : Node)
    (json_str : String) :
    (Node.parse_message json_parse m node json_str).2.state_ = node.state_ ∧
    (Node.parse_message json_parse m node json_str).2.id_ = node.id_ ∧
    (Node.parse_message json_parse m node json_str).2.peers_ = node.peers_ ∧
    (Node.parse_message json_parse m node json_str).2.handlers_ = node.handlers_ ∧
    (Node.parse_message json_parse m node json_str).2.msg_id = node.msg_id ∧
    ∃ written, (Node.parse_message json_parse m node json_str).2.lg_.lines
      = node.lg_.lines ++ written := by
  cases hp : json_parse json_str with
  | error e =>
    rw [Node.parse_message_of_parse_error m node hp]
    exact ⟨rfl, rfl, rfl, rfl, rfl, [], by simp⟩
  | ok jv =>
    rcases JValue.envelope_cases jv with hbad | ⟨s, d, t, ho, hs, hd, ht⟩
    · obtain ⟨e, he⟩ := Node.parse_message_of_malformed m node hp hbad
      rw [he]
      exact ⟨rfl, rfl, rfl, rfl, rfl, [], by simp⟩
    · obtain ⟨obj, b, hjo, h1, h2, h3, h4⟩ := JValue.envelope_lookups ho hs hd ht
      subst hjo
      obtain ⟨extra, he, _⟩ := Node.parse_message_snd_of_envelope m node hp h1 h2 h3 h4
      rw [he]
      refine ⟨rfl, rfl, rfl, rfl, rfl, ("received type: " ++ string_from_c_str t) :: extra, ?_⟩
      rw [Node.wrote_lines]
      simp [logger.log]

end data
end maelstrom
